import Mathlib

/-!
Verification of the opendb-mcp-server connector layer.

This file gives a shallow embedding of the connector abstraction and dispatch
layer of the opendb-mcp-server repository (TypeScript) and proves properties
of it.  SQL statements are modelled as lists of characters; the JavaScript
string operations used by the source (trim, toUpperCase, startsWith,
includes, slice, template interpolation of numbers) are modelled as functions
on character lists.  Stateful objects (connectors, the Kerberos
authenticator, the connector registry) are modelled as explicit state
records, with functions from state to state; the outcome of an external
effect that can fail (closing a pool, running kdestroy) is passed in as a
boolean parameter.
-/

namespace OpenDB

/-- Whitespace as recognised by JavaScript String.prototype.trim, restricted
to the ASCII range relevant to SQL text: space, tab, line feed, carriage
return, vertical tab, form feed. -/
def isJsWs (c : Char) : Bool :=
  c = ' ' || c = '\t' || c = '\n' || c = '\r' || c = '\x0b' || c = '\x0c'

/-- ASCII-range model of String.prototype.toUpperCase on one character. -/
def upperChar (c : Char) : Char :=
  if 'a' ≤ c && c ≤ 'z' then Char.ofNat (c.toNat - 32) else c

/-- toUpperCase over a character list. -/
def upperL (l : List Char) : List Char := l.map upperChar

/-- JavaScript String.prototype.trim: strip leading and trailing whitespace. -/
def trimL (l : List Char) : List Char :=
  ((l.dropWhile isJsWs).reverse.dropWhile isJsWs).reverse

/-- The normalization `sql.trim().toUpperCase()` used throughout
src/connectors/base.ts. -/
def normalizeSql (l : List Char) : List Char := upperL (trimL l)

/-- Fuel-driven core of the decimal rendering of a natural number; the fuel
is structural so that the definition reduces in the kernel. -/
def natDigitsCore : Nat → Nat → List Char
| 0, _ => []
| fuel + 1, n =>
  if n < 10 then [Char.ofNat (48 + n)]
  else natDigitsCore fuel (n / 10) ++ [Char.ofNat (48 + n % 10)]

/-- Decimal rendering of a natural number, as JavaScript template
interpolation `${maxRows}` produces for a nonnegative integer. -/
def natDigits (n : Nat) : List Char := natDigitsCore (n + 1) n

namespace BaseConnector

/-- The write-statement keyword list of BaseConnector.isWriteQuery
(src/connectors/base.ts). -/
def writeKeywords : List (List Char) :=
  ["INSERT".toList, "UPDATE".toList, "DELETE".toList, "DROP".toList,
   "CREATE".toList, "ALTER".toList, "TRUNCATE".toList, "GRANT".toList,
   "REVOKE".toList, "MERGE".toList, "UPSERT".toList, "REPLACE".toList]

/-- BaseConnector.isWriteQuery: the trimmed, upper-cased statement starts
with one of the write keywords. -/
def isWriteQuery (sql : List Char) : Bool :=
  writeKeywords.any (fun k => decide (k <+: normalizeSql sql))

/-- BaseConnector.wrapWithLimit: pass through statements that already
contain a limiting clause or that are not SELECT statements; otherwise
append a LIMIT clause to the trimmed statement. -/
def wrapWithLimit (sql : List Char) (maxRows : Nat) : List Char :=
  if decide (" LIMIT ".toList <:+: normalizeSql sql)
      || decide (" TOP ".toList <:+: normalizeSql sql)
      || decide (" FETCH ".toList <:+: normalizeSql sql) then sql
  else if ! decide ("SELECT".toList <+: normalizeSql sql) then sql
  else trimL sql ++ " LIMIT ".toList ++ natDigits maxRows

/-- Result shape of BaseConnector.formatRows. -/
structure FormattedRows (α : Type) where
  rows : List α
  truncated : Bool
deriving Repr, DecidableEq

/-- BaseConnector.formatRows: flag truncation when more than maxRows rows
were fetched and keep only the first maxRows of them. -/
def formatRows (rows : List α) (maxRows : Nat) : FormattedRows α :=
  let truncated := decide (rows.length > maxRows)
  { rows := if truncated then rows.take maxRows else rows
    truncated := truncated }

/-- The merged per-connector options (ConnectorOptions in
src/connectors/types.ts); queryTimeout always receives a value in the
BaseConnector constructor via DEFAULT_QUERY_TIMEOUT. -/
structure ConnectorOptions where
  readonly : Bool
  maxRows : Nat
  queryTimeout : Nat
deriving Repr, DecidableEq

/-- Per-call overrides (ExecuteOptions in src/connectors/types.ts). -/
structure ExecuteOptions where
  maxRows : Option Nat := none
  timeout : Option Nat := none
deriving Repr, DecidableEq

/-- Outcome of the pre-delegation phase of BaseConnector.execute: either one
of the two guard errors, or delegation to the adapter with the effective
row bound and timeout. -/
inductive ExecOutcome where
| errNotConnected
| errReadonly
| delegated (maxRows : Nat) (timeout : Nat)
deriving Repr, DecidableEq

/-- BaseConnector.execute: not-connected guard, then read-only guard, then
delegation to the engine-specific executeQuery with merged limits. -/
def execute (isConnected : Bool) (opts : ConnectorOptions) (sql : List Char)
    (callOpts : ExecuteOptions) : ExecOutcome :=
  if !isConnected then .errNotConnected
  else if opts.readonly && isWriteQuery sql then .errReadonly
  else .delegated (callOpts.maxRows.getD opts.maxRows) (callOpts.timeout.getD opts.queryTimeout)

end BaseConnector

namespace SqlServerConnector

/-- JavaScript `sqlQuery.replace(/^SELECT/i, "SELECT TOP " + maxRows)`: the
anchored, case-insensitive regex matches exactly when the first six
characters of the (untrimmed) string are SELECT up to case, and only that
leading occurrence is replaced. -/
def replaceLeadingSelect (sql : List Char) (maxRows : Nat) : List Char :=
  if upperL (sql.take 6) = "SELECT".toList then
    "SELECT TOP ".toList ++ natDigits maxRows ++ sql.drop 6
  else sql

/-- SqlServerConnector.wrapWithLimit override: pass through statements that
already contain TOP or OFFSET or that are not SELECT statements; otherwise
insert TOP after the leading SELECT. -/
def wrapWithLimit (sql : List Char) (maxRows : Nat) : List Char :=
  if decide (" TOP ".toList <:+: normalizeSql sql)
      || decide (" OFFSET ".toList <:+: normalizeSql sql)
      || ! decide ("SELECT".toList <+: normalizeSql sql) then sql
  else replaceLeadingSelect sql maxRows

/-- SqlServerConnector.executeQuery wraps with maxRows + 1 (the truncation
probe) before dispatching. -/
def executeQueryWrappedSql (sql : List Char) (maxRows : Nat) : List Char :=
  wrapWithLimit sql (maxRows + 1)

end SqlServerConnector

namespace SqliteConnector

/-- The SELECT/WITH classification of SqliteConnector.executeQuery that
chooses between the row-returning path and the run path. -/
def isSelect (sql : List Char) : Bool :=
  decide ("SELECT".toList <+: normalizeSql sql)
    || decide ("WITH".toList <+: normalizeSql sql)

/-- SqliteConnector.executeQuery wraps with maxRows + 1 (the truncation
probe) before preparing the statement, on its SELECT/WITH path. -/
def executeQueryWrappedSql (sql : List Char) (maxRows : Nat) : List Char :=
  BaseConnector.wrapWithLimit sql (maxRows + 1)

end SqliteConnector

namespace PostgresConnector

/-- PostgresConnector.executeQuery wraps with maxRows + 1 (the truncation
probe) before dispatching to the pool. -/
def executeQueryWrappedSql (sql : List Char) (maxRows : Nat) : List Char :=
  BaseConnector.wrapWithLimit sql (maxRows + 1)

end PostgresConnector

namespace ConnectorManager

/-- Engine type strings accepted by configuration (DatabaseType in
src/config/types.ts). -/
inductive DbType where
| postgres
| mysql
| mariadb
| sqlserver
| sqlite
| hive
| impala
deriving Repr, DecidableEq

/-- The adapter variants the factory in src/connectors/index.ts can
construct. -/
inductive ConnectorKind where
| postgresConnector
| mySqlConnector
| sqlServerConnector
| hiveConnector
| impalaConnector
deriving Repr, DecidableEq

/-- The string form of an engine type, as interpolated into the factory
error message. -/
def dbTypeName : DbType → String
| .postgres => "postgres"
| .mysql => "mysql"
| .mariadb => "mariadb"
| .sqlserver => "sqlserver"
| .sqlite => "sqlite"
| .hive => "hive"
| .impala => "impala"

/-- ConnectorManager.createConnector: the switch on config.type.  The cases
are postgres, mysql, mariadb, sqlserver, hive and impala; every other
member of DatabaseType (that is, sqlite) falls to the default branch and
throws. -/
def createConnector : DbType → Except String ConnectorKind
| .postgres => .ok .postgresConnector
| .mysql => .ok .mySqlConnector
| .mariadb => .ok .mySqlConnector
| .sqlserver => .ok .sqlServerConnector
| .hive => .ok .hiveConnector
| .impala => .ok .impalaConnector
| t => .error ("Unsupported database type: " ++ dbTypeName t)

/-- JavaScript Map.get on an insertion-ordered association list with
distinct keys. -/
def mapGet (m : List (String × α)) (id : String) : Option α :=
  (m.find? (fun p => p.1 == id)).map (·.2)

/-- ConnectorManager.listSourceIds. -/
def listSourceIds (m : List (String × α)) : List String := m.map (·.1)

/-- Array.prototype.join(", "). -/
def joinComma : List String → String
| [] => ""
| [x] => x
| x :: xs => x ++ ", " ++ joinComma xs

/-- ConnectorManager.getDefault: the sole connector when exactly one source
is configured, otherwise the connector registered under the id default. -/
def getDefault (m : List (String × α)) : Option α :=
  if m.length = 1 then m.head?.map (·.2) else mapGet m "default"

/-- The error message of the unknown-id branch of resolve. -/
def unknownSourceMsg (id : String) (ids : List String) : String :=
  "Unknown source: " ++ id ++ ". Available sources: " ++ joinComma ids

/-- The error message of the no-default branch of resolve. -/
def ambiguousMsg (ids : List String) : String :=
  "Multiple sources configured. Please specify source_id. Available: " ++ joinComma ids

/-- The branch of resolve taken when no (truthy) source id was supplied. -/
def resolveDefault (m : List (String × α)) : Except String α :=
  match getDefault m with
  | some c => .ok c
  | none => .error (ambiguousMsg (listSourceIds m))

/-- ConnectorManager.resolve.  The source tests the argument for JavaScript
truthiness, so an absent id and an empty-string id both take the default
branch. -/
def resolve (m : List (String × α)) (sourceId : Option String) : Except String α :=
  match sourceId with
  | some id =>
    if id = "" then resolveDefault m
    else
      match mapGet m id with
      | some c => .ok c
      | none => .error (unknownSourceMsg id (listSourceIds m))
  | none => resolveDefault m

end ConnectorManager

namespace PostgresConnector

/-- Handle-owning state of the pool-based connectors.  PostgresConnector is
modelled here; MySqlConnector, SqlServerConnector and SqliteConnector have
the same disconnect shape (a guarded close with no try/catch). -/
structure State where
  pool : Bool
  isConnected : Bool
deriving Repr, DecidableEq

/-- PostgresConnector.disconnect: when a pool is present, await pool.end()
and only afterwards clear the handle and the connected flag; a rejecting
pool.end() propagates to the caller and leaves the state untouched.
Returns the new state and whether an error propagated. -/
def disconnect (st : State) (closeOk : Bool) : State × Bool :=
  if st.pool then
    if closeOk then ({ pool := false, isConnected := false }, false)
    else (st, true)
  else (st, false)

end PostgresConnector

namespace HiveConnector

/-- Handle-owning state of HiveConnector. -/
structure State where
  client : Bool
  session : Bool
  kerberosAuth : Bool
  isConnected : Bool
deriving Repr, DecidableEq

/-- HiveConnector.disconnect: the close calls run inside a try whose catch
only logs, and the finally block unconditionally clears client, session,
kerberosAuth and the connected flag, so the result is independent of
whether the close calls succeed and no error ever propagates. -/
def disconnect (_st : State) (_closeOk : Bool) : State × Bool :=
  ({ client := false, session := false, kerberosAuth := false, isConnected := false }, false)

end HiveConnector

namespace ImpalaConnector

/-- Handle-owning state of ImpalaConnector, mirroring the Hive connector
state. -/
structure State where
  client : Bool
  session : Bool
  kerberosAuth : Bool
  isConnected : Bool
deriving Repr, DecidableEq

/-- Modelled from the spec: the ImpalaConnector source file is missing from
the staged sources (only the registry imports it).  The repository
developer documentation describes it as a nearly identical implementation
to the Hive connector, and the spec invariant says disconnect always
transitions back to disconnected and releases the owned handle even if the
underlying close fails; so, as in the Hive connector, the close calls run
inside a try whose catch only logs and a finally block unconditionally
clears the handles and the connected flag, and no error propagates. -/
def disconnect (_st : State) (_closeOk : Bool) : State × Bool :=
  ({ client := false, session := false, kerberosAuth := false, isConnected := false }, false)

end ImpalaConnector

namespace KerberosAuth

/-- State of the Kerberos authenticator (src/services/kerberos.ts):
the initialized flag, the cached ticket expiry (a timestamp), and whether
a renewal timer is pending. -/
structure State where
  initialized : Bool
  ticketExpiry : Option Nat
  refreshTimer : Bool
deriving Repr, DecidableEq

/-- KerberosAuth.destroy: first clears any pending refresh timer; then runs
the external kdestroy command and, only if it succeeds, resets initialized
and ticketExpiry; a kdestroy failure is caught and logged, leaving those
two fields as they were.  destroy itself never throws. -/
def destroy (st : State) (kdestroyOk : Bool) : State :=
  let cleared : State := { st with refreshTimer := false }
  if kdestroyOk then
    { initialized := false, ticketExpiry := none, refreshTimer := false }
  else cleared

/-- KerberosAuth.isValid: initialized, and either no cached expiry or the
expiry lies in the future. -/
def isValid (st : State) (now : Nat) : Bool :=
  if !st.initialized then false
  else
    match st.ticketExpiry with
    | none => true
    | some e => decide (now < e)

end KerberosAuth

namespace Tools

/-- A connector as the tool layer sees it: its current connection state,
whether a connect() attempt on it would succeed, and the options consulted
by BaseConnector.execute. -/
structure Conn where
  isConnected : Bool
  connectOk : Bool
  options : BaseConnector.ConnectorOptions
deriving Repr, DecidableEq

/-- Outcome of one executeSql tool invocation. -/
inductive SqlToolOutcome where
| emptySqlError
| resolveError (msg : String)
| connectError
| notConnectedError
| readonlyError
| executed (maxRows : Nat) (timeout : Nat)
deriving Repr, DecidableEq

/-- Mapping of BaseConnector.execute outcomes into tool outcomes. -/
def execOutcomeToTool : BaseConnector.ExecOutcome → SqlToolOutcome
| .errNotConnected => .notConnectedError
| .errReadonly => .readonlyError
| .delegated mr t => .executed mr t

/-- executeSql (src/tools/execute-sql.ts): empty-SQL guard, resolve, an
implicit connect() when the connector is disconnected, then
connector.execute with only params supplied (no per-call limits).  connect()
sets the connected flag on success; its failure is caught and reported. -/
def executeSql (m : List (String × Conn)) (sourceId : Option String) (sql : List Char) :
    SqlToolOutcome :=
  if (trimL sql).length = 0 then .emptySqlError
  else
    match ConnectorManager.resolve m sourceId with
    | .error e => .resolveError e
    | .ok c =>
      if c.isConnected then
        execOutcomeToTool (BaseConnector.execute c.isConnected c.options sql {})
      else if c.connectOk then
        execOutcomeToTool (BaseConnector.execute true c.options sql {})
      else .connectError

/-- Object kinds of SchemaSearchOptions. -/
inductive ObjectType where
| schema
| table
| column
| index
| procedureKind
deriving Repr, DecidableEq

/-- Outcome of one searchObjects tool invocation. -/
inductive SearchToolOutcome where
| columnNeedsTableError
| resolveError (msg : String)
| connectError
| notConnectedError
| searched
deriving Repr, DecidableEq

/-- An adapter searchObjects call: every adapter throws a not-connected
error when its handle is absent and otherwise proceeds with the catalog
queries. -/
def adapterSearch (connected : Bool) : SearchToolOutcome :=
  if connected then .searched else .notConnectedError

/-- searchObjects (src/tools/search-objects.ts): the column-requires-table
guard runs before resolution; then resolve, the implicit connect() when
disconnected, and the adapter search. -/
def searchObjects (m : List (String × Conn)) (sourceId : Option String)
    (objectType : Option ObjectType) (table : Option String) : SearchToolOutcome :=
  if objectType = some .column && table.isNone then .columnNeedsTableError
  else
    match ConnectorManager.resolve m sourceId with
    | .error e => .resolveError e
    | .ok c =>
      if c.isConnected then adapterSearch c.isConnected
      else if c.connectOk then adapterSearch true
      else .connectError

end Tools

/-! ### Supporting lemmas about the string model -/

/-- The ten decimal digit characters. -/
def digitChars : List Char := "0123456789".toList

theorem natDigitsCore_mem_digits (fuel n : Nat) :
    ∀ c ∈ natDigitsCore fuel n, c ∈ digitChars := by
  induction fuel generalizing n with
  | zero => intro c hc; simp [natDigitsCore] at hc
  | succ fuel ih =>
    intro c hc
    rw [natDigitsCore] at hc
    by_cases h10 : n < 10
    · simp [h10] at hc
      subst hc
      interval_cases n <;> decide
    · simp [h10, List.mem_append] at hc
      rcases hc with hc | hc
      · exact ih (n / 10) c hc
      · subst hc
        have hm : n % 10 < 10 := Nat.mod_lt _ (by omega)
        set r := n % 10 with hr
        interval_cases r <;> decide

theorem natDigits_mem_digits (n : Nat) : ∀ c ∈ natDigits n, c ∈ digitChars :=
  natDigitsCore_mem_digits (n + 1) n

theorem natDigits_ends_with_digit (n : Nat) :
    ∃ ds d, natDigits n = ds ++ [d] ∧ d ∈ digitChars := by
  unfold natDigits
  rw [natDigitsCore]
  by_cases h10 : n < 10
  · refine ⟨[], Char.ofNat (48 + n), by simp [h10], ?_⟩
    interval_cases n <;> decide
  · refine ⟨natDigitsCore n (n / 10), Char.ofNat (48 + n % 10), by simp [h10], ?_⟩
    have hm : n % 10 < 10 := Nat.mod_lt _ (by omega)
    set r := n % 10 with hr
    interval_cases r <;> decide

theorem digit_not_ws {c : Char} (h : c ∈ digitChars) : isJsWs c = false := by
  fin_cases h <;> decide

theorem digit_upperChar {c : Char} (h : c ∈ digitChars) : upperChar c = c := by
  fin_cases h <;> decide

theorem upperL_eq_self_of_mem {l : List Char} (h : ∀ c ∈ l, upperChar c = c) :
    upperL l = l := by
  induction l with
  | nil => rfl
  | cons c cs ih =>
    have hr := ih (fun x hx => h x (by simp [hx]))
    simp only [upperL, List.map_cons] at hr ⊢
    rw [h c (by simp), hr]

theorem upperL_natDigits (n : Nat) : upperL (natDigits n) = natDigits n :=
  upperL_eq_self_of_mem (fun c hc => digit_upperChar (natDigits_mem_digits n c hc))

theorem upperL_append (a b : List Char) : upperL (a ++ b) = upperL a ++ upperL b :=
  List.map_append upperChar a b

theorem not_ws_of_upperChar_S {c : Char} (h : upperChar c = 'S') : isJsWs c = false := by
  by_contra hws
  have hws' : isJsWs c = true := by revert hws; cases isJsWs c <;> simp
  have hc : c = ' ' ∨ c = '\t' ∨ c = '\n' ∨ c = '\r' ∨ c = '\x0b' ∨ c = '\x0c' := by
    revert hws'
    simp [isJsWs]
    tauto
  rcases hc with rfl | rfl | rfl | rfl | rfl | rfl <;> revert h <;> decide

/-- A list starting and ending in non-whitespace characters extends on the
right without disturbing its trim: trimming keeps the whole block as a
prefix. -/
theorem trimL_extend (c : Char) (mid : List Char) (d : Char) (rest : List Char)
    (hc : isJsWs c = false) (hd : isJsWs d = false) :
    ∃ tail, trimL ((c :: (mid ++ [d])) ++ rest) = (c :: (mid ++ [d])) ++ tail := by
  have h1 : ((c :: (mid ++ [d])) ++ rest).dropWhile isJsWs = (c :: (mid ++ [d])) ++ rest := by
    rw [List.cons_append]
    simp [List.dropWhile_cons, hc]
  have h3 : (c :: (mid ++ [d])).reverse = d :: (mid.reverse ++ [c]) := by
    simp
  unfold trimL
  rw [h1, List.reverse_append, List.dropWhile_append]
  rcases hsplit : rest.reverse.dropWhile isJsWs with _ | ⟨x, xs⟩
  · refine ⟨[], ?_⟩
    simp only [List.isEmpty_nil, if_true]
    rw [h3]
    simp [List.dropWhile_cons, hd]
  · refine ⟨(x :: xs).reverse, ?_⟩
    simp only [List.isEmpty_cons, Bool.false_eq_true, if_false]
    rw [List.reverse_append, List.reverse_reverse]

/-- From the normalized statement starting with SELECT, the trimmed
statement starts with an S of either case. -/
theorem trimL_head_of_select {sql : List Char}
    (h : "SELECT".toList <+: normalizeSql sql) :
    ∃ c cs, trimL sql = c :: cs ∧ upperChar c = 'S' := by
  obtain ⟨t, ht⟩ := h
  cases hcs : trimL sql with
  | nil =>
    rw [normalizeSql, hcs] at ht
    simp [upperL] at ht
  | cons c cs =>
    refine ⟨c, cs, rfl, ?_⟩
    rw [normalizeSql, hcs] at ht
    simp only [upperL, List.map_cons] at ht
    have : ("SELECT".toList ++ t).head? = (upperChar c :: List.map upperChar cs).head? := by
      rw [ht]
    simpa using this.symm

/-! ### Behaviour of the row-limit injection helpers -/

theorem upperL_limitToken : upperL " LIMIT ".toList = " LIMIT ".toList := by decide

theorem upperL_topToken : upperL " TOP ".toList = " TOP ".toList := by decide

theorem upperL_selectToken : upperL "SELECT".toList = "SELECT".toList := by decide

/-- Appending the LIMIT clause to a trimmed SELECT statement produces a
statement whose normalized form contains the LIMIT token. -/
theorem wrapped_select_has_limit (sql : List Char) (n : Nat)
    (hsel : "SELECT".toList <+: normalizeSql sql) :
    " LIMIT ".toList <:+: normalizeSql (trimL sql ++ " LIMIT ".toList ++ natDigits n) := by
  obtain ⟨c, cs, hcs, hS⟩ := trimL_head_of_select hsel
  obtain ⟨ds, d, hds, hd⟩ := natDigits_ends_with_digit n
  have hc := not_ws_of_upperChar_S hS
  have hdws := digit_not_ws hd
  have hshape : trimL sql ++ " LIMIT ".toList ++ natDigits n
      = (c :: ((cs ++ " LIMIT ".toList ++ ds) ++ [d])) ++ [] := by
    rw [hcs, hds]
    simp
  obtain ⟨tail, htail⟩ := trimL_extend c (cs ++ " LIMIT ".toList ++ ds) d [] hc hdws
  rw [normalizeSql, hshape, htail]
  have hre : (c :: ((cs ++ " LIMIT ".toList ++ ds) ++ [d])) ++ tail
      = ((c :: cs) ++ " LIMIT ".toList) ++ (ds ++ [d] ++ tail) := by
    simp
  rw [hre, upperL_append, upperL_append, upperL_limitToken]
  exact List.infix_append _ _ _

/-- Inserting TOP after the leading SELECT produces a statement whose
normalized form contains the TOP token. -/
theorem replaced_select_has_top (n : Nat) (rest : List Char) :
    " TOP ".toList <:+: normalizeSql ("SELECT TOP ".toList ++ natDigits n ++ rest) := by
  obtain ⟨ds, d, hds, hd⟩ := natDigits_ends_with_digit n
  have hdws := digit_not_ws hd
  have hshape : "SELECT TOP ".toList ++ natDigits n ++ rest
      = ('S' :: (("ELECT TOP ".toList ++ ds) ++ [d])) ++ rest := by
    rw [hds]
    simp
  obtain ⟨tail, htail⟩ :=
    trimL_extend 'S' ("ELECT TOP ".toList ++ ds) d rest (by decide) hdws
  rw [normalizeSql, hshape, htail]
  have hre : ('S' :: (("ELECT TOP ".toList ++ ds) ++ [d])) ++ tail
      = ("SELECT".toList ++ " TOP ".toList) ++ (ds ++ [d] ++ tail) := by
    simp
  rw [hre, upperL_append, upperL_append, upperL_topToken]
  exact List.infix_append _ _ _

/-- Case analysis of BaseConnector.wrapWithLimit: pass-through, or the
LIMIT clause appended to a SELECT. -/
theorem base_wrap_cases (sql : List Char) (n : Nat) :
    BaseConnector.wrapWithLimit sql n = sql ∨
      ("SELECT".toList <+: normalizeSql sql ∧
        BaseConnector.wrapWithLimit sql n = trimL sql ++ " LIMIT ".toList ++ natDigits n) := by
  by_cases h1 : " LIMIT ".toList <:+: normalizeSql sql
  · left
    unfold BaseConnector.wrapWithLimit
    rw [decide_eq_true h1]
    simp
  by_cases h2 : " TOP ".toList <:+: normalizeSql sql
  · left
    unfold BaseConnector.wrapWithLimit
    rw [decide_eq_true h2]
    simp
  by_cases h3 : " FETCH ".toList <:+: normalizeSql sql
  · left
    unfold BaseConnector.wrapWithLimit
    rw [decide_eq_true h3]
    simp
  by_cases h4 : "SELECT".toList <+: normalizeSql sql
  · right
    refine ⟨h4, ?_⟩
    unfold BaseConnector.wrapWithLimit
    rw [decide_eq_false h1, decide_eq_false h2, decide_eq_false h3, decide_eq_true h4]
    simp
  · left
    unfold BaseConnector.wrapWithLimit
    rw [decide_eq_false h1, decide_eq_false h2, decide_eq_false h3, decide_eq_false h4]
    simp

/-- A statement already containing the LIMIT token is passed through by
BaseConnector.wrapWithLimit. -/
theorem base_wrap_of_limit (sql : List Char) (n : Nat)
    (h : " LIMIT ".toList <:+: normalizeSql sql) :
    BaseConnector.wrapWithLimit sql n = sql := by
  unfold BaseConnector.wrapWithLimit
  rw [decide_eq_true h]
  simp

/-- Case analysis of the SqlServerConnector.wrapWithLimit override:
pass-through, or TOP inserted after the leading SELECT. -/
theorem sqlserver_wrap_cases (sql : List Char) (n : Nat) :
    SqlServerConnector.wrapWithLimit sql n = sql ∨
      SqlServerConnector.wrapWithLimit sql n
        = "SELECT TOP ".toList ++ natDigits n ++ sql.drop 6 := by
  by_cases h1 : " TOP ".toList <:+: normalizeSql sql
  · left
    unfold SqlServerConnector.wrapWithLimit
    rw [decide_eq_true h1]
    simp
  by_cases h2 : " OFFSET ".toList <:+: normalizeSql sql
  · left
    unfold SqlServerConnector.wrapWithLimit
    rw [decide_eq_true h2]
    simp
  by_cases h3 : "SELECT".toList <+: normalizeSql sql
  · have hbranch : SqlServerConnector.wrapWithLimit sql n
        = SqlServerConnector.replaceLeadingSelect sql n := by
      unfold SqlServerConnector.wrapWithLimit
      rw [decide_eq_false h1, decide_eq_false h2, decide_eq_true h3]
      simp
    by_cases h4 : upperL (sql.take 6) = "SELECT".toList
    · right
      rw [hbranch]
      unfold SqlServerConnector.replaceLeadingSelect
      rw [if_pos h4]
    · left
      rw [hbranch]
      unfold SqlServerConnector.replaceLeadingSelect
      rw [if_neg h4]
  · left
    unfold SqlServerConnector.wrapWithLimit
    rw [decide_eq_false h3]
    simp

/-- A statement already containing the TOP token is passed through by the
SqlServerConnector.wrapWithLimit override. -/
theorem sqlserver_wrap_of_top (sql : List Char) (n : Nat)
    (h : " TOP ".toList <:+: normalizeSql sql) :
    SqlServerConnector.wrapWithLimit sql n = sql := by
  unfold SqlServerConnector.wrapWithLimit
  rw [decide_eq_true h]
  simp

/-! ### Supporting lemmas about the registry -/

theorem string_toList_append (a b : String) : (a ++ b).toList = a.toList ++ b.toList := by
  simp [String.toList]

/-- Every element of a comma-join occurs inside the joined string. -/
theorem mem_infix_joinComma (k : String) (l : List String) (hk : k ∈ l) :
    k.toList <:+: (ConnectorManager.joinComma l).toList := by
  induction l with
  | nil => cases hk
  | cons x xs ih =>
    cases xs with
    | nil =>
      have hx : k = x := by simpa using hk
      subst hx
      exact List.infix_refl _
    | cons y ys =>
      rcases List.mem_cons.mp hk with hx | hmem
      · subst hx
        show k.toList <:+: (k ++ ", " ++ ConnectorManager.joinComma (y :: ys)).toList
        rw [string_toList_append, string_toList_append]
        exact ((k.toList.prefix_append _).trans (List.prefix_append _ _)).isInfix
      · have htail := ih hmem
        show k.toList <:+: (x ++ ", " ++ ConnectorManager.joinComma (y :: ys)).toList
        rw [string_toList_append]
        exact htail.trans (List.suffix_append _ _).isInfix

/-- mapGet succeeds exactly for the configured source ids. -/
theorem mapGet_isSome_iff {α : Type} (m : List (String × α)) (id : String) :
    (∃ c, ConnectorManager.mapGet m id = some c) ↔ id ∈ ConnectorManager.listSourceIds m := by
  unfold ConnectorManager.mapGet ConnectorManager.listSourceIds
  constructor
  · rintro ⟨c, hc⟩
    rcases hfind : m.find? (fun p => p.1 == id) with _ | p
    · rw [hfind] at hc
      simp at hc
    · have hp := List.find?_some hfind
      have hmem := List.mem_of_find?_eq_some hfind
      have : p.1 = id := by simpa using hp
      exact this ▸ List.mem_map.mpr ⟨p, hmem, rfl⟩
  · intro hmem
    obtain ⟨p, hpm, hp1⟩ := List.mem_map.mp hmem
    have : (m.find? (fun q => q.1 == id)).isSome := by
      rw [List.find?_isSome]
      exact ⟨p, hpm, by simp [hp1]⟩
    obtain ⟨q, hq⟩ := Option.isSome_iff_exists.mp this
    exact ⟨q.2, by simp [hq]⟩

/-! ### The claims -/

/-- C1: with the merged readonly flag true and the connector connected,
execute fails with the read-only QueryError before delegating exactly when
the trimmed statement, case-insensitively, starts with one of the twelve
write keywords; a statement not so classified is delegated, so a SELECT
that merely contains the word update later in its text is not blocked. -/
theorem claim1_readonly_blocks_iff (opts : BaseConnector.ConnectorOptions)
    (hro : opts.readonly = true) (sql : List Char)
    (callOpts : BaseConnector.ExecuteOptions) :
    BaseConnector.execute true opts sql callOpts = .errReadonly ↔
      ∃ k ∈ BaseConnector.writeKeywords, k <+: normalizeSql sql := by
  have hany : (BaseConnector.isWriteQuery sql = true)
      ↔ ∃ k ∈ BaseConnector.writeKeywords, k <+: normalizeSql sql := by
    unfold BaseConnector.isWriteQuery
    rw [List.any_eq_true]
    constructor
    · rintro ⟨k, hk, hp⟩
      exact ⟨k, hk, of_decide_eq_true hp⟩
    · rintro ⟨k, hk, hp⟩
      exact ⟨k, hk, decide_eq_true hp⟩
  rw [← hany]
  cases hW : BaseConnector.isWriteQuery sql
  · simp [BaseConnector.execute, hro, hW]
  · simp [BaseConnector.execute, hro, hW]

/-- C1 witness: an UPDATE statement is blocked; a SELECT statement that
contains the word update in a later position is delegated, not blocked. -/
theorem claim1_witness :
    BaseConnector.execute true ⟨true, 1000, 30000⟩ "UPDATE t SET x = 1".toList {}
        = .errReadonly
      ∧ BaseConnector.execute true ⟨true, 1000, 30000⟩
          "SELECT x FROM t WHERE update_flag = 1".toList {} ≠ .errReadonly := by
  constructor
  · exact (claim1_readonly_blocks_iff ⟨true, 1000, 30000⟩ rfl _ {}).mpr (by decide)
  · intro hcontra
    have h := (claim1_readonly_blocks_iff ⟨true, 1000, 30000⟩ rfl _ {}).mp hcontra
    revert h
    decide

/-- C2: execute on a disconnected connector fails with the not-connected
QueryError and never delegates to the engine-specific executeQuery. -/
theorem claim2_disconnected_execute (opts : BaseConnector.ConnectorOptions)
    (sql : List Char) (callOpts : BaseConnector.ExecuteOptions) :
    BaseConnector.execute false opts sql callOpts = .errNotConnected ∧
      ∀ mr t, BaseConnector.execute false opts sql callOpts ≠ .delegated mr t := by
  refine ⟨rfl, ?_⟩
  intro mr t h
  simp [BaseConnector.execute] at h

/-- C2 witness at a concrete disconnected connector and statement. -/
theorem claim2_witness :
    BaseConnector.execute false ⟨false, 1000, 30000⟩ "SELECT 1".toList {}
        = .errNotConnected ∧
      BaseConnector.execute false ⟨false, 1000, 30000⟩ "SELECT 1".toList {}
        ≠ .delegated 1000 30000 :=
  ⟨(claim2_disconnected_execute ⟨false, 1000, 30000⟩ "SELECT 1".toList {}).1,
   (claim2_disconnected_execute ⟨false, 1000, 30000⟩ "SELECT 1".toList {}).2 1000 30000⟩

/-- C3: formatRows reports truncated = true and returns exactly the first
maxRows rows when more than maxRows rows were fetched, and reports
truncated = false and returns all rows otherwise. -/
theorem claim3_truncation_law {α : Type} (rows : List α) (n : Nat) :
    (n < rows.length →
      (BaseConnector.formatRows rows n).truncated = true ∧
      (BaseConnector.formatRows rows n).rows = rows.take n ∧
      (BaseConnector.formatRows rows n).rows.length = n) ∧
    (rows.length ≤ n →
      (BaseConnector.formatRows rows n).truncated = false ∧
      (BaseConnector.formatRows rows n).rows = rows) := by
  constructor
  · intro h
    have hd : decide (rows.length > n) = true := decide_eq_true h
    refine ⟨by simp [BaseConnector.formatRows, hd], by simp [BaseConnector.formatRows, hd], ?_⟩
    simp [BaseConnector.formatRows, hd, List.length_take]
    omega
  · intro h
    have hd : decide (rows.length > n) = false := decide_eq_false (by omega)
    exact ⟨by simp [BaseConnector.formatRows, hd], by simp [BaseConnector.formatRows, hd]⟩

/-- C3 witness: three rows against a bound of two, and one row against a
bound of two. -/
theorem claim3_witness :
    (BaseConnector.formatRows [10, 20, 30] 2).truncated = true ∧
    (BaseConnector.formatRows [10, 20, 30] 2).rows = [10, 20] ∧
    (BaseConnector.formatRows ([10] : List Nat) 2).truncated = false ∧
    (BaseConnector.formatRows ([10] : List Nat) 2).rows = [10] :=
  ⟨((claim3_truncation_law [10, 20, 30] 2).1 (by decide)).1,
   (((claim3_truncation_law [10, 20, 30] 2).1 (by decide)).2.1).trans (by decide),
   ((claim3_truncation_law ([10] : List Nat) 2).2 (by decide)).1,
   ((claim3_truncation_law ([10] : List Nat) 2).2 (by decide)).2⟩

/-- C4 counterexample: a WITH query with no limiting clause is passed
through unmodified by the shared row-limit injection helper, although the
SQLite adapter classifies it as a row-returning query; the claim requires
it to be rewritten with the engine limiting syntax. -/
theorem claim4_counterexample :
    ("WITH".toList <+: normalizeSql "WITH c AS (SELECT 1) SELECT x FROM c".toList) ∧
    ¬ (" LIMIT ".toList <:+: normalizeSql "WITH c AS (SELECT 1) SELECT x FROM c".toList) ∧
    ¬ (" TOP ".toList <:+: normalizeSql "WITH c AS (SELECT 1) SELECT x FROM c".toList) ∧
    ¬ (" FETCH ".toList <:+: normalizeSql "WITH c AS (SELECT 1) SELECT x FROM c".toList) ∧
    SqliteConnector.isSelect "WITH c AS (SELECT 1) SELECT x FROM c".toList = true ∧
    SqliteConnector.executeQueryWrappedSql "WITH c AS (SELECT 1) SELECT x FROM c".toList 100
      = "WITH c AS (SELECT 1) SELECT x FROM c".toList := by
  decide

/-- C4 amended: the shared helper, as invoked by the adapters with
maxRows + 1, appends the LIMIT clause only to statements whose trimmed,
case-insensitive text starts with SELECT and has no LIMIT/TOP/FETCH token;
WITH queries, other non-SELECT statements, and statements already carrying
a limiting token are passed through unmodified. -/
theorem claim4_amended (sql : List Char) (m : Nat) :
    (("SELECT".toList <+: normalizeSql sql) →
      ¬ (" LIMIT ".toList <:+: normalizeSql sql) →
      ¬ (" TOP ".toList <:+: normalizeSql sql) →
      ¬ (" FETCH ".toList <:+: normalizeSql sql) →
      PostgresConnector.executeQueryWrappedSql sql m
        = trimL sql ++ " LIMIT ".toList ++ natDigits (m + 1)) ∧
    (¬ ("SELECT".toList <+: normalizeSql sql) →
      PostgresConnector.executeQueryWrappedSql sql m = sql) ∧
    ((" LIMIT ".toList <:+: normalizeSql sql) →
      PostgresConnector.executeQueryWrappedSql sql m = sql) ∧
    (SqliteConnector.executeQueryWrappedSql sql m
      = PostgresConnector.executeQueryWrappedSql sql m) := by
  refine ⟨?_, ?_, ?_, rfl⟩
  · intro h4 h1 h2 h3
    unfold PostgresConnector.executeQueryWrappedSql BaseConnector.wrapWithLimit
    rw [decide_eq_false h1, decide_eq_false h2, decide_eq_false h3, decide_eq_true h4]
    simp
  · intro h4
    unfold PostgresConnector.executeQueryWrappedSql
    rcases base_wrap_cases sql (m + 1) with h | ⟨hsel, _⟩
    · exact h
    · exact absurd hsel h4
  · intro h1
    exact base_wrap_of_limit sql (m + 1) h1

/-- C4 amended witness: a bare SELECT is rewritten to request one more row
than the bound; a DELETE passes through; a SELECT with an existing LIMIT
passes through. -/
theorem claim4_amended_witness :
    PostgresConnector.executeQueryWrappedSql "SELECT x FROM t".toList 100
        = "SELECT x FROM t LIMIT 101".toList ∧
    PostgresConnector.executeQueryWrappedSql "DELETE FROM t".toList 100
        = "DELETE FROM t".toList ∧
    PostgresConnector.executeQueryWrappedSql "SELECT x FROM t LIMIT 5".toList 100
        = "SELECT x FROM t LIMIT 5".toList :=
  ⟨((claim4_amended "SELECT x FROM t".toList 100).1
      (by decide) (by decide) (by decide) (by decide)).trans (by decide),
   (claim4_amended "DELETE FROM t".toList 100).2.1 (by decide),
   (claim4_amended "SELECT x FROM t LIMIT 5".toList 100).2.2.1 (by decide)⟩

/-- C5: row-limit injection is idempotent for the shared LIMIT helper and
for the SQL Server TOP override: applying wrapWithLimit to its own output
returns that output unchanged. -/
theorem claim5_wrap_idempotent (sql : List Char) (n : Nat) :
    BaseConnector.wrapWithLimit (BaseConnector.wrapWithLimit sql n) n
        = BaseConnector.wrapWithLimit sql n ∧
    SqlServerConnector.wrapWithLimit (SqlServerConnector.wrapWithLimit sql n) n
        = SqlServerConnector.wrapWithLimit sql n := by
  constructor
  · rcases base_wrap_cases sql n with h | ⟨hsel, h⟩
    · rw [h]
      exact h
    · rw [h]
      exact base_wrap_of_limit _ n (wrapped_select_has_limit sql n hsel)
  · rcases sqlserver_wrap_cases sql n with h | h
    · rw [h]
      exact h
    · rw [h]
      exact sqlserver_wrap_of_top _ n (replaced_select_has_top n (sql.drop 6))

/-- C6 counterexample: the factory switch has no sqlite case, so a source
whose engine type is sqlite hits the default branch and construction fails
with the unsupported-type error, although the claim lists sqlite among the
constructible engines. -/
theorem claim6_counterexample :
    ConnectorManager.createConnector .sqlite
      = .error "Unsupported database type: sqlite" := rfl

/-- C6 amended: the factory constructs a connector for postgres, mysql,
mariadb, sqlserver, hive and impala (mysql and mariadb sharing the MySQL
adapter); every other engine type of the configuration union — that is,
sqlite, despite an adapter class existing in the codebase — fails
construction with the unsupported-type error. -/
theorem claim6_amended (t : ConnectorManager.DbType) :
    ((∃ k, ConnectorManager.createConnector t = .ok k) ↔ t ≠ .sqlite) ∧
    ConnectorManager.createConnector .postgres = .ok .postgresConnector ∧
    ConnectorManager.createConnector .mysql = .ok .mySqlConnector ∧
    ConnectorManager.createConnector .mariadb = .ok .mySqlConnector ∧
    ConnectorManager.createConnector .sqlserver = .ok .sqlServerConnector ∧
    ConnectorManager.createConnector .hive = .ok .hiveConnector ∧
    ConnectorManager.createConnector .impala = .ok .impalaConnector ∧
    ConnectorManager.createConnector .sqlite
      = .error ("Unsupported database type: " ++ ConnectorManager.dbTypeName .sqlite) := by
  refine ⟨?_, rfl, rfl, rfl, rfl, rfl, rfl, rfl⟩
  cases t <;> simp [ConnectorManager.createConnector]

/-- C6 amended witness: postgres constructs, sqlite does not. -/
theorem claim6_amended_witness :
    (∃ k, ConnectorManager.createConnector .postgres = .ok k) ∧
    ¬ (∃ k, ConnectorManager.createConnector .sqlite = .ok k) := by
  constructor
  · exact (claim6_amended .postgres).1.mpr (by decide)
  · intro h
    exact ((claim6_amended .sqlite).1.mp h) rfl

/-- C8 counterexample: on the Postgres connector with a live pool, a
failing pool.end() propagates out of disconnect and leaves the connector
still marked connected with its handle still held, contrary to the claim
that disconnect always discards the handle and never propagates close
failures. -/
theorem claim8_counterexample :
    PostgresConnector.disconnect { pool := true, isConnected := true } false
      = ({ pool := true, isConnected := true }, true) := rfl

/-- C8 amended: the disconnect of the Hive connector — and, per its
spec-modelled twin, of the Impala connector — always clears its handles and
connected flag and never propagates, thanks to its try/catch/finally; the
pool-handle connectors present in the sources (Postgres, and identically
MySQL, SQL Server and SQLite) are a no-op when no handle is held, reset
their state when the close succeeds, and on a close failure propagate the
error with the state left untouched. -/
theorem claim8_amended (st : PostgresConnector.State) (hst : HiveConnector.State)
    (ist : ImpalaConnector.State) (closeOk : Bool) :
    ((HiveConnector.disconnect hst closeOk).1.isConnected = false ∧
     (HiveConnector.disconnect hst closeOk).1.client = false ∧
     (HiveConnector.disconnect hst closeOk).1.session = false ∧
     (HiveConnector.disconnect hst closeOk).1.kerberosAuth = false ∧
     (HiveConnector.disconnect hst closeOk).2 = false) ∧
    ((ImpalaConnector.disconnect ist closeOk).1.isConnected = false ∧
     (ImpalaConnector.disconnect ist closeOk).1.client = false ∧
     (ImpalaConnector.disconnect ist closeOk).1.session = false ∧
     (ImpalaConnector.disconnect ist closeOk).1.kerberosAuth = false ∧
     (ImpalaConnector.disconnect ist closeOk).2 = false) ∧
    (st.pool = false → PostgresConnector.disconnect st closeOk = (st, false)) ∧
    (st.pool = true → closeOk = true →
      PostgresConnector.disconnect st closeOk
        = ({ pool := false, isConnected := false }, false)) ∧
    (st.pool = true → closeOk = false →
      PostgresConnector.disconnect st closeOk = (st, true)) := by
  refine ⟨⟨rfl, rfl, rfl, rfl, rfl⟩, ⟨rfl, rfl, rfl, rfl, rfl⟩, ?_, ?_, ?_⟩
  · intro h
    simp [PostgresConnector.disconnect, h]
  · intro h hc
    simp [PostgresConnector.disconnect, h, hc]
  · intro h hc
    simp [PostgresConnector.disconnect, h, hc]

/-- C8 amended witness: already-disconnected no-op, successful close, the
Hive finally-block reset, and the spec-modelled Impala reset. -/
theorem claim8_amended_witness :
    PostgresConnector.disconnect { pool := false, isConnected := false } true
        = ({ pool := false, isConnected := false }, false) ∧
    PostgresConnector.disconnect { pool := true, isConnected := true } true
        = ({ pool := false, isConnected := false }, false) ∧
    (HiveConnector.disconnect ⟨true, true, true, true⟩ false).1.isConnected = false ∧
    (ImpalaConnector.disconnect ⟨true, true, true, true⟩ false).1.isConnected = false :=
  ⟨(claim8_amended ⟨false, false⟩ ⟨true, true, true, true⟩ ⟨true, true, true, true⟩ true).2.2.1
      rfl,
   (claim8_amended ⟨true, true⟩ ⟨true, true, true, true⟩ ⟨true, true, true, true⟩ true).2.2.2.1
      rfl rfl,
   (claim8_amended ⟨true, true⟩ ⟨true, true, true, true⟩ ⟨true, true, true, true⟩ false).1.1,
   (claim8_amended ⟨true, true⟩ ⟨true, true, true, true⟩ ⟨true, true, true, true⟩ false).2.1.1⟩

/-- C9 counterexample: when the external credential-destroy command fails,
destroy returns with the renewal timer cancelled but the authenticator
still initialized, so isValid still reports true, contrary to the claim
that destroy resets to uninitialized regardless of the command outcome. -/
theorem claim9_counterexample :
    (KerberosAuth.destroy
        { initialized := true, ticketExpiry := none, refreshTimer := true } false).refreshTimer
        = false ∧
    (KerberosAuth.destroy
        { initialized := true, ticketExpiry := none, refreshTimer := true } false).initialized
        = true ∧
    KerberosAuth.isValid
        (KerberosAuth.destroy
          { initialized := true, ticketExpiry := none, refreshTimer := true } false) 0
        = true := by
  decide

/-- C9 amended: destroy always cancels the pending renewal timer and never
throws; it resets the initialized flag and the cached expiry only when the
external destroy command succeeds (then isValid is false); on a command
failure those two fields are left as they were. -/
theorem claim9_amended (st : KerberosAuth.State) (ok : Bool) (now : Nat) :
    ((KerberosAuth.destroy st ok).refreshTimer = false) ∧
    (ok = true →
      KerberosAuth.destroy st ok
          = { initialized := false, ticketExpiry := none, refreshTimer := false } ∧
      KerberosAuth.isValid (KerberosAuth.destroy st ok) now = false) ∧
    (ok = false →
      (KerberosAuth.destroy st ok).initialized = st.initialized ∧
      (KerberosAuth.destroy st ok).ticketExpiry = st.ticketExpiry) := by
  cases ok <;> simp [KerberosAuth.destroy, KerberosAuth.isValid]

/-- C9 amended witness: a successful destroy resets everything; a failed
destroy keeps the cached expiry. -/
theorem claim9_amended_witness :
    KerberosAuth.destroy ⟨true, some 5, true⟩ true = ⟨false, none, false⟩ ∧
    (KerberosAuth.destroy ⟨true, some 5, true⟩ false).ticketExpiry = some 5 :=
  ⟨((claim9_amended ⟨true, some 5, true⟩ true 0).2.1 rfl).1,
   ((claim9_amended ⟨true, some 5, true⟩ false 0).2.2 rfl).2⟩

/-- C7: resolve with a (truthy) identifier returns the connector registered
under it, or fails with an error whose message lists every configured
identifier; resolve without an identifier succeeds exactly when one source
is configured or a source named default exists, and otherwise fails with an
error whose message lists every configured identifier. -/
theorem claim7_resolve_spec {α : Type} (m : List (String × α)) :
    (∀ id c, id ≠ "" → ConnectorManager.mapGet m id = some c →
        ConnectorManager.resolve m (some id) = .ok c) ∧
    (∀ id, id ≠ "" → ConnectorManager.mapGet m id = none →
        ConnectorManager.resolve m (some id)
          = .error (ConnectorManager.unknownSourceMsg id (ConnectorManager.listSourceIds m))) ∧
    (∀ id, ∀ k ∈ ConnectorManager.listSourceIds m,
        k.toList <:+:
          (ConnectorManager.unknownSourceMsg id (ConnectorManager.listSourceIds m)).toList) ∧
    ((∃ c, ConnectorManager.resolve m none = .ok c) ↔
      (m.length = 1 ∨ "default" ∈ ConnectorManager.listSourceIds m)) ∧
    (¬ (m.length = 1 ∨ "default" ∈ ConnectorManager.listSourceIds m) →
      ConnectorManager.resolve m none
          = .error (ConnectorManager.ambiguousMsg (ConnectorManager.listSourceIds m)) ∧
      ∀ k ∈ ConnectorManager.listSourceIds m,
        k.toList <:+:
          (ConnectorManager.ambiguousMsg (ConnectorManager.listSourceIds m)).toList) := by
  refine ⟨?_, ?_, ?_, ?_, ?_⟩
  · intro id c hid hmg
    simp only [ConnectorManager.resolve]
    rw [if_neg hid, hmg]
  · intro id hid hmg
    simp only [ConnectorManager.resolve]
    rw [if_neg hid, hmg]
  · intro id k hk
    have h2 : (ConnectorManager.joinComma (ConnectorManager.listSourceIds m)).toList
        <:+: (ConnectorManager.unknownSourceMsg id (ConnectorManager.listSourceIds m)).toList := by
      unfold ConnectorManager.unknownSourceMsg
      rw [string_toList_append]
      exact (List.suffix_append _ _).isInfix
    exact (mem_infix_joinComma k _ hk).trans h2
  · constructor
    · rintro ⟨c, hc⟩
      simp only [ConnectorManager.resolve, ConnectorManager.resolveDefault] at hc
      rcases hgd : ConnectorManager.getDefault m with _ | c2
      · rw [hgd] at hc
        simp at hc
      · unfold ConnectorManager.getDefault at hgd
        by_cases hlen : m.length = 1
        · exact Or.inl hlen
        · rw [if_neg hlen] at hgd
          exact Or.inr ((mapGet_isSome_iff m "default").mp ⟨c2, hgd⟩)
    · intro h
      simp only [ConnectorManager.resolve, ConnectorManager.resolveDefault,
        ConnectorManager.getDefault]
      by_cases hlen : m.length = 1
      · rw [if_pos hlen]
        obtain ⟨p, hp⟩ := List.length_eq_one.mp hlen
        subst hp
        exact ⟨p.2, rfl⟩
      · rw [if_neg hlen]
        have hmem : "default" ∈ ConnectorManager.listSourceIds m := by
          rcases h with h | h
          · exact absurd h hlen
          · exact h
        obtain ⟨c, hc⟩ := (mapGet_isSome_iff m "default").mpr hmem
        rw [hc]
        exact ⟨c, rfl⟩
  · intro h
    push_neg at h
    have hnomem : ConnectorManager.mapGet m "default" = none := by
      rcases hmg : ConnectorManager.mapGet m "default" with _ | c
      · rfl
      · exact absurd ((mapGet_isSome_iff m "default").mp ⟨c, hmg⟩) h.2
    refine ⟨?_, ?_⟩
    · simp only [ConnectorManager.resolve, ConnectorManager.resolveDefault,
        ConnectorManager.getDefault]
      rw [if_neg h.1, hnomem]
    · intro k hk
      have h2 : (ConnectorManager.joinComma (ConnectorManager.listSourceIds m)).toList
          <:+: (ConnectorManager.ambiguousMsg (ConnectorManager.listSourceIds m)).toList := by
        unfold ConnectorManager.ambiguousMsg
        rw [string_toList_append]
        exact (List.suffix_append _ _).isInfix
      exact (mem_infix_joinComma k _ hk).trans h2

/-- C7 witness: the spec scenario of two sources a and b with no default:
lookup by id succeeds, an unknown id fails with the listing message, a
bare resolve fails, and both configured ids occur in its error message. -/
theorem claim7_witness :
    ConnectorManager.resolve [("a", 1), ("b", 2)] (some "a") = .ok 1 ∧
    ConnectorManager.resolve [("a", 1), ("b", 2)] (some "c")
      = .error (ConnectorManager.unknownSourceMsg "c"
          (ConnectorManager.listSourceIds [("a", 1), ("b", 2)])) ∧
    ConnectorManager.resolve ([("a", 1), ("b", 2)] : List (String × Nat)) none
      = .error (ConnectorManager.ambiguousMsg
          (ConnectorManager.listSourceIds [("a", 1), ("b", 2)])) ∧
    "a".toList <:+: (ConnectorManager.ambiguousMsg
        (ConnectorManager.listSourceIds ([("a", 1), ("b", 2)] : List (String × Nat)))).toList ∧
    "b".toList <:+: (ConnectorManager.ambiguousMsg
        (ConnectorManager.listSourceIds ([("a", 1), ("b", 2)] : List (String × Nat)))).toList :=
  ⟨(claim7_resolve_spec [("a", 1), ("b", 2)]).1 "a" 1 (by decide) rfl,
   (claim7_resolve_spec [("a", 1), ("b", 2)]).2.1 "c" (by decide) rfl,
   ((claim7_resolve_spec [("a", 1), ("b", 2)]).2.2.2.2 (by decide)).1,
   ((claim7_resolve_spec [("a", 1), ("b", 2)]).2.2.2.2 (by decide)).2 "a" (by decide),
   ((claim7_resolve_spec [("a", 1), ("b", 2)]).2.2.2.2 (by decide)).2 "b" (by decide)⟩

/-- BaseConnector.execute on a connected connector never reports the
not-connected error through the tool mapping. -/
theorem execOutcome_connected_ne_notConnected (opts : BaseConnector.ConnectorOptions)
    (sql : List Char) (co : BaseConnector.ExecuteOptions) :
    Tools.execOutcomeToTool (BaseConnector.execute true opts sql co)
      ≠ Tools.SqlToolOutcome.notConnectedError := by
  unfold BaseConnector.execute
  by_cases h : (opts.readonly && BaseConnector.isWriteQuery sql) = true <;>
    simp [h, Tools.execOutcomeToTool]

/-- C10: the tool layer connects a disconnected connector before calling
execute/searchObjects, so neither tool ever surfaces the not-connected
execution error; when the connector is disconnected and its connect attempt
would succeed, execute runs against the connected state; the only failure a
disconnected connector can surface is the connect error itself. -/
theorem claim10_tools_connect_first (m : List (String × Tools.Conn)) (sid : Option String)
    (sql : List Char) (ot : Option Tools.ObjectType) (tbl : Option String) :
    (Tools.executeSql m sid sql ≠ .notConnectedError) ∧
    (Tools.searchObjects m sid ot tbl ≠ .notConnectedError) ∧
    (∀ c, ConnectorManager.resolve m sid = .ok c → (trimL sql).length ≠ 0 →
      c.isConnected = false → c.connectOk = true →
      Tools.executeSql m sid sql
        = Tools.execOutcomeToTool (BaseConnector.execute true c.options sql {})) ∧
    (∀ c, ConnectorManager.resolve m sid = .ok c → (trimL sql).length ≠ 0 →
      c.isConnected = false → c.connectOk = false →
      Tools.executeSql m sid sql = .connectError) := by
  refine ⟨?_, ?_, ?_, ?_⟩
  · unfold Tools.executeSql
    split
    · simp
    · split
      · simp
      · rename_i c heq
        split
        · rename_i hc
          rw [hc]
          exact execOutcome_connected_ne_notConnected c.options sql {}
        · split
          · exact execOutcome_connected_ne_notConnected c.options sql {}
          · simp
  · unfold Tools.searchObjects
    split
    · simp
    · split
      · simp
      · rename_i c heq
        split
        · rename_i hc
          rw [hc]
          simp [Tools.adapterSearch]
        · split
          · simp [Tools.adapterSearch]
          · simp
  · intro c hres h0 hc hk
    unfold Tools.executeSql
    rw [if_neg h0]
    split
    · rename_i e heq
      rw [hres] at heq
      simp at heq
    · rename_i c2 heq
      rw [hres] at heq
      obtain rfl : c2 = c := by
        cases heq
        rfl
      rw [if_neg (by simp [hc]), if_pos hk]
  · intro c hres h0 hc hk
    unfold Tools.executeSql
    rw [if_neg h0]
    split
    · rename_i e heq
      rw [hres] at heq
      simp at heq
    · rename_i c2 heq
      rw [hres] at heq
      obtain rfl : c2 = c := by
        cases heq
        rfl
      rw [if_neg (by simp [hc]), if_neg (by simp [hk])]

/-- C10 witness: a disconnected connector whose connect attempt fails
surfaces the connect error, not the not-connected execution error. -/
theorem claim10_witness :
    Tools.executeSql [("db", ⟨false, false, ⟨false, 1000, 30000⟩⟩)] (some "db")
        "SELECT 1".toList = .connectError :=
  (claim10_tools_connect_first [("db", ⟨false, false, ⟨false, 1000, 30000⟩⟩)] (some "db")
      "SELECT 1".toList none none).2.2.2
    ⟨false, false, ⟨false, 1000, 30000⟩⟩ rfl (by decide) rfl rfl

end OpenDB
